import Mathlib

/-!
Shallow embedding of `simulab/simulation/plotters/final_grid.py` (class
`FinalGridSeries`) and proofs about its behaviour.

Modelling conventions:
* numeric lattice values (Python ints / numpy floats) are rationals `ℚ`;
* Python dict/attribute lookups that may raise are `Option`-valued, with
  `none` standing for the uncaught exception;
* `np.linspace` is the exact even spacing over `[start, stop]`;
* a Python `set` of strings is a deduplicated `List String` (one enumeration
  of the set; all properties proved about it are order-independent).
-/

namespace FinalGrid

/-- Numeric lattice values are modelled as rationals. -/
abbrev Val := ℚ

/-- A lattice snapshot: a 2D grid of numeric values, as a list of rows. -/
abbrev Lattice := List (List Val)

/-- One named series of an experiment: its ordered snapshots plus the optional
`__series_metadata__["states"]` list of state names (`none` models a metadata
dict without the `"states"` key). -/
structure SeriesData where
  snapshots : List Lattice
  states : Option (List String)

/-- An experiment of the collection.  `series` is the named-series mapping
(`experiment.series[name]` and the series attribute reached by
`getattr(experiment, name)` resolve to the same entry); `attr a` models the
string rendering `str(getattr(experiment, a))` used in row titles. -/
structure Experiment where
  series : List (String × SeriesData)
  agent_types : ℤ
  length : ℤ
  attr : String → String

/-- The runner's parameter set: the optional `"agent_types"` entry (a list of
values across the parameter grid; `none` models a `KeyError` on lookup) and
the set of varying parameter names. -/
structure ExperimentParametersSet where
  agent_types : Option (List ℤ)
  parameters_to_vary : List String

/-- The experiment collection handle passed to the plotter. -/
structure Runner where
  experiments : List Experiment
  experiment_parameters_set : ExperimentParametersSet

/-- Python `range(n)` for a (possibly non-positive) integer bound. -/
def pyRange (n : ℤ) : List ℤ :=
  (List.range n.toNat).map Int.ofNat

/-- `np.linspace start stop num`: `num` evenly spaced values over
`[start, stop]`, endpoint included (`num = 1` gives `[start]`). -/
def linspace (start stop : ℚ) (num : ℕ) : List ℚ :=
  if num ≤ 1 then (List.range num).map fun _ => start
  else (List.range num).map fun (i : ℕ) =>
    start + (i : ℚ) * (stop - start) / ((num : ℚ) - 1)

/-- Python `str` on a numeric value (exact on integers, where it agrees with
Lean's rendering of the rational). -/
def pyStr (q : ℚ) : String := toString q

/-- Round to the nearest integer, ties to even (the rounding used by Python's
fixed-point float formatting). -/
def roundHalfEven (q : ℚ) : ℤ :=
  let fl := ⌊q⌋
  let frac := q - fl
  if frac < 1/2 then fl
  else if 1/2 < frac then fl + 1
  else if fl % 2 = 0 then fl else fl + 1

/-- Python `f-string` formatting of a value to one decimal place
(`"{val:.1f}"`). -/
def fmt1 (q : ℚ) : String :=
  let n := roundHalfEven (q * 10)
  let m := n.natAbs
  let sign := if n < 0 then "-" else ""
  sign ++ toString (m / 10) ++ "." ++ toString (m % 10)

/-- Tick metadata produced by `get_series_metadata`: the tick values and the
`labelalias` map (as an association list keyed by tick value). -/
structure Metadata where
  tickvals : List Val
  labelalias : List (Val × String)
  deriving DecidableEq, Repr

/-- `max(runner.experiment_parameters_set["agent_types"])`, falling back on a
missing key to the first experiment's own `agent_types`.  `none` models an
uncaught crash (no experiments, or `max` of an empty entry). -/
def resolve_max_agent_types (runner : Runner) : Option ℤ := do
  let experiment ← runner.experiments.head?
  match runner.experiment_parameters_set.agent_types with
  | some l => l.max?
  | none => some experiment.agent_types

/-- `FinalGridSeries.get_series_metadata`: resolve tick values and labels for
the series, via the explicit `"states"` metadata when present, else by
scanning the first experiment's first snapshot. -/
def get_series_metadata (series_name : String) (runner : Runner) :
    Option Metadata := do
  let experiment ← runner.experiments.head?
  let max_agent_types ← resolve_max_agent_types runner
  let sd ← experiment.series.lookup series_name
  match sd.states with
  | some states =>
      let agent_types_amount := max_agent_types * states.length
      let tickvals := pyRange agent_types_amount
      some { tickvals := tickvals.map fun (i : ℤ) => (i : ℚ),
             labelalias := tickvals.map fun (i : ℤ) =>
               ((i : ℚ),
                toString (i % max_agent_types) ++ " "
                  ++ states.getD (i / max_agent_types).toNat "") }
  | none => do
      let snap ← sd.snapshots.head?
      let lattice := snap.flatten
      let mn ← lattice.min?
      let mx ← lattice.max?
      if mx - mn > (max_agent_types : ℚ) then
        let tickvals := linspace mn (mx + 1) (8 * runner.experiments.length)
        some { tickvals := tickvals,
               labelalias := tickvals.map fun v => (v, pyStr v) }
      else
        let tickvals := (pyRange max_agent_types).map fun (i : ℤ) => ((i : ℚ))
        some { tickvals := tickvals,
               labelalias := tickvals.map fun v => (v, pyStr v) }

/-- One render row, as assembled per experiment by `process_series`. -/
structure Row where
  index : ℕ
  first_lattice : Lattice
  last_lattice : Lattice
  title : String
  subplot_titles : List String
  tickvals : List Val
  labelalias : List (Val × String)
  deriving DecidableEq, Repr

/-- The `"{attribute}={getattr(experiment, attribute)}"` segments composing a
row title. -/
def titleSegments (experiment : Experiment) (params : List String) :
    List String :=
  params.map fun a => a ++ "=" ++ experiment.attr a

/-- Assemble one row for one experiment (`none` models the uncaught crash on a
missing series name or an empty snapshot list). -/
def build_row (series_name : String) (params : List String)
    (metadata : Metadata) (index : ℕ) (experiment : Experiment) : Option Row := do
  let sd ← experiment.series.lookup series_name
  let first ← sd.snapshots.head?
  let last ← sd.snapshots.getLast?
  some { index := index,
         first_lattice := first,
         last_lattice := last,
         title := String.intercalate "<br>" (titleSegments experiment params),
         subplot_titles := ["t_0", "t_" ++ toString (sd.snapshots.length - 1)],
         tickvals := metadata.tickvals,
         labelalias := metadata.labelalias }

/-- The `for index, experiment in enumerate(runner.experiments, start=1)` loop
of `process_series`. -/
def build_rows (series_name : String) (params : List String)
    (metadata : Metadata) : ℕ → List Experiment → Option (List Row)
  | _, [] => some []
  | index, e :: es => do
      let r ← build_row series_name params metadata index e
      let rs ← build_rows series_name params metadata (index + 1) es
      some (r :: rs)

/-- `FinalGridSeries.process_series`: resolve the metadata once, then build one
row per experiment. -/
def process_series (runner : Runner) (series_name : String)
    (params : List String) : Option (List Row) := do
  let metadata ← get_series_metadata series_name runner
  build_rows series_name params metadata 1 runner.experiments

/-- The `all_values` accumulation loop of `calculate_global_min_max`: the
union of all rows' first-snapshot and last-snapshot values, flattened. -/
def allVals (rows : List Row) : List Val :=
  rows.foldl
    (fun acc row => acc ++ row.first_lattice.flatten ++ row.last_lattice.flatten) []

/-- `FinalGridSeries.calculate_global_min_max`: min and max over every row's
flattened first and last lattice (`none` models `min`/`max` of an empty
sequence). -/
def calculate_global_min_max (rows : List Row) : Option (Val × Val) :=
  match (allVals rows).min?, (allVals rows).max? with
  | some mn, some mx => some (mn, mx)
  | _, _ => none

/-- One heatmap trace added by `configure_heatmaps`. -/
structure Heatmap where
  z : Lattice
  coloraxis : String
  hovertemplate : String
  row : ℕ
  col : ℕ
  deriving DecidableEq, Repr

/-- The shared color-bar configuration. -/
structure ColorBar where
  title : String
  titleside : String
  tickmode : String
  tickvals : List Val
  ticktext : List String
  ticks : String
  deriving DecidableEq, Repr

/-- The observable configuration of the assembled figure: everything
`make_figure`, `configure_figure` and `configure_heatmaps` set. -/
structure FigureConfig where
  subplot_titles : List String
  row_titles : List String
  x_range : Val × Val
  x_autorange : Bool
  y_autorange : String
  height : ℤ
  width : ℤ
  title_text : String
  colorscale : String
  colorbar : ColorBar
  cmin : Val
  cmax : Val
  grid_rows : ℕ
  grid_columns : ℕ
  heatmaps : List Heatmap
  deriving DecidableEq, Repr

/-- The hover template of every heatmap trace. -/
def hover_template : String :=
  "x: %\x7by\x7d<br>y: %\x7bx\x7d<br>z: %\x7bz\x7d<extra></extra>"

/-- `make_figure`'s subplot-title sequence: each row's two subplot titles in
reading order. -/
def make_subplot_titles : List Row → List String
  | [] => []
  | row :: rest =>
      row.subplot_titles.getD 0 "" :: row.subplot_titles.getD 1 ""
        :: make_subplot_titles rest

/-- `configure_heatmaps`: two traces per row (first lattice in column 1, last
lattice in column 2), all bound to the shared color axis. -/
def make_heatmaps : List Row → List Heatmap
  | [] => []
  | row :: rest =>
      { z := row.first_lattice, coloraxis := "coloraxis",
        hovertemplate := hover_template, row := row.index, col := 1 } ::
      { z := row.last_lattice, coloraxis := "coloraxis",
        hovertemplate := hover_template, row := row.index, col := 2 }
        :: make_heatmaps rest

/-- `FinalGridSeries.configure_figure` (together with the figure assembly of
`make_figure` and `configure_heatmaps`): produce the figure configuration.
`none` models the uncaught crash on an empty experiment or row list. -/
def configure_figure (runner : Runner) (plot_title leyend : String)
    (height : Option ℤ) (rows : List Row) (zmin zmax : Val)
    (colorscale : String) : Option FigureConfig := do
  let e0 ← runner.experiments.head?
  let r0 ← rows.head?
  let tick_count := r0.tickvals.length
  let new_tickvals := linspace zmin zmax tick_count
  let calculated_height :=
    match height with
    | some h => if h ≠ 0 then h else max 600 (300 * (rows.length : ℤ))
    | none => max 600 (300 * (rows.length : ℤ))
  some { subplot_titles := make_subplot_titles rows,
         row_titles := rows.map Row.title,
         x_range := (0, (e0.length : ℚ) - 1),
         x_autorange := true,
         y_autorange := "reversed",
         height := calculated_height,
         width := 700,
         title_text := plot_title,
         colorscale := colorscale,
         colorbar := { title := leyend, titleside := "top", tickmode := "array",
                       tickvals := new_tickvals,
                       ticktext := new_tickvals.map fmt1,
                       ticks := "outside" },
         cmin := zmin,
         cmax := zmax,
         grid_rows := rows.length,
         grid_columns := 2,
         heatmaps := make_heatmaps rows }

/-- `params = attributes_to_consider if attributes_to_consider else []`
(Python truthiness: both `None` and the empty list fall back to `[]`). -/
def mk_params (attributes_to_consider : Option (List String)) : List String :=
  match attributes_to_consider with
  | none => []
  | some l => if l.isEmpty then [] else l

/-- `set(params).union(runner.experiment_parameters_set.parameters_to_vary)`,
as one deduplicated enumeration of the union. -/
def params_set (runner : Runner)
    (attributes_to_consider : Option (List String)) : List String :=
  (mk_params attributes_to_consider ++
    runner.experiment_parameters_set.parameters_to_vary).dedup

/-- `FinalGridSeries.show_up`: the public render entry point, returning the
figure configuration it displays (`none` models an uncaught crash). -/
def show_up (series_name : String) (runner : Runner) (plot_title : String)
    (height : Option ℤ) (leyend : String)
    (attributes_to_consider : Option (List String)) (colorscale : String) :
    Option FigureConfig := do
  let ps := params_set runner attributes_to_consider
  let rows ← process_series runner series_name ps
  let mm ← calculate_global_min_max rows
  configure_figure runner plot_title leyend height rows mm.1 mm.2 colorscale

/-- The render pipeline downstream of metadata resolution: build the rows from
a given metadata value, compute the global range, and configure the figure.
`show_up` is exactly `get_series_metadata` followed by this. -/
def render_after_metadata (runner : Runner) (series_name : String)
    (params : List String) (plot_title leyend : String) (height : Option ℤ)
    (colorscale : String) (metadata : Metadata) : Option FigureConfig := do
  let rows ← build_rows series_name params metadata 1 runner.experiments
  let mm ← calculate_global_min_max rows
  configure_figure runner plot_title leyend height rows mm.1 mm.2 colorscale

/-! ### Helper lemmas -/

/-- Characterisation of `List.min?` over the rationals. -/
lemma rat_min?_spec {l : List ℚ} {a : ℚ} (h : l.min? = some a) :
    a ∈ l ∧ ∀ b ∈ l, a ≤ b := by
  have : Std.Antisymm (α := ℚ) (fun x y => x ≤ y) := ⟨fun h1 h2 => le_antisymm h1 h2⟩
  rw [List.min?_eq_some_iff] at h
  · exact h
  · exact fun a => le_refl a
  · exact fun a b => min_choice a b
  · exact fun a b c => le_min_iff

/-- Characterisation of `List.max?` over the rationals. -/
lemma rat_max?_spec {l : List ℚ} {a : ℚ} (h : l.max? = some a) :
    a ∈ l ∧ ∀ b ∈ l, b ≤ a := by
  have : Std.Antisymm (α := ℚ) (fun x y => x ≤ y) := ⟨fun h1 h2 => le_antisymm h1 h2⟩
  rw [List.max?_eq_some_iff] at h
  · exact h
  · exact fun a => le_refl a
  · exact fun a b => max_choice a b
  · exact fun a b c => max_le_iff

/-- `linspace` always yields exactly `num` values. -/
lemma linspace_length (start stop : ℚ) (num : ℕ) :
    (linspace start stop num).length = num := by
  unfold linspace
  by_cases h : num ≤ 1
  · rw [if_pos h, List.length_map, List.length_range]
  · rw [if_neg h, List.length_map, List.length_range]

/-- Unfolding `show_up` into its pipeline stages. -/
lemma show_up_some_iff {series_name : String} {runner : Runner}
    {plot_title leyend colorscale : String} {height : Option ℤ}
    {attrs : Option (List String)} {fig : FigureConfig} :
    show_up series_name runner plot_title height leyend attrs colorscale =
        some fig ↔
      ∃ rows mm,
        process_series runner series_name (params_set runner attrs) = some rows ∧
        calculate_global_min_max rows = some mm ∧
        configure_figure runner plot_title leyend height rows mm.1 mm.2
          colorscale = some fig := by
  simp only [show_up, Option.bind_eq_bind, Option.bind_eq_some]
  constructor
  · rintro ⟨rows, hrows, mm, hmm, hcfg⟩
    exact ⟨rows, mm, hrows, hmm, hcfg⟩
  · rintro ⟨rows, mm, hrows, hmm, hcfg⟩
    exact ⟨rows, hrows, mm, hmm, hcfg⟩

/-- The figure record built by `configure_figure` once the first experiment and
first row have been fetched. -/
def figure_of (e0 : Experiment) (r0 : Row) (plot_title leyend : String)
    (height : Option ℤ) (rows : List Row) (zmin zmax : Val)
    (colorscale : String) : FigureConfig :=
  let tick_count := r0.tickvals.length
  let new_tickvals := linspace zmin zmax tick_count
  let calculated_height :=
    match height with
    | some h => if h ≠ 0 then h else max 600 (300 * (rows.length : ℤ))
    | none => max 600 (300 * (rows.length : ℤ))
  { subplot_titles := make_subplot_titles rows,
    row_titles := rows.map Row.title,
    x_range := (0, (e0.length : ℚ) - 1),
    x_autorange := true,
    y_autorange := "reversed",
    height := calculated_height,
    width := 700,
    title_text := plot_title,
    colorscale := colorscale,
    colorbar := { title := leyend, titleside := "top", tickmode := "array",
                  tickvals := new_tickvals,
                  ticktext := new_tickvals.map fmt1,
                  ticks := "outside" },
    cmin := zmin,
    cmax := zmax,
    grid_rows := rows.length,
    grid_columns := 2,
    heatmaps := make_heatmaps rows }

/-- `configure_figure` succeeds exactly on a nonempty experiment list and row
list, and then returns `figure_of`. -/
lemma configure_figure_some_iff {runner : Runner} {plot_title leyend : String}
    {height : Option ℤ} {rows : List Row} {zmin zmax : Val}
    {colorscale : String} {fig : FigureConfig} :
    configure_figure runner plot_title leyend height rows zmin zmax colorscale =
        some fig ↔
      ∃ e0 r0, runner.experiments.head? = some e0 ∧ rows.head? = some r0 ∧
        fig = figure_of e0 r0 plot_title leyend height rows zmin zmax
          colorscale := by
  simp only [configure_figure, figure_of, Option.bind_eq_bind,
    Option.bind_eq_some, Option.some.injEq]
  constructor
  · rintro ⟨e0, he, r0, hr, hfig⟩
    exact ⟨e0, r0, he, hr, hfig.symm⟩
  · rintro ⟨e0, r0, he, hr, hfig⟩
    exact ⟨e0, he, r0, hr, hfig.symm⟩

/-! ### Concrete test fixtures (used by the witness theorems) -/

/-- The series data of the two-state example experiment. -/
def sdStatesW : SeriesData :=
  { snapshots := [[[0, 1], [2, 3]], [[5, 6], [7, 8]]],
    states := some ["open", "closed"] }

/-- A two-state, two-agent-type experiment. -/
def expStates : Experiment :=
  { series := [("density", sdStatesW)],
    agent_types := 2,
    length := 2,
    attr := fun a => if a = "p" then "7" else "x" }

/-- A runner holding `expStates`, with an explicit `"agent_types"` entry. -/
def runnerStates : Runner :=
  { experiments := [expStates],
    experiment_parameters_set :=
      { agent_types := some [2, 1], parameters_to_vary := ["p"] } }

/-- The series data of the no-metadata example experiment. -/
def sdPlainW : SeriesData :=
  { snapshots := [[[0, 1], [2, 10]], [[5, 6], [7, 8]]], states := none }

/-- An experiment without per-state metadata and with a wide value spread. -/
def expPlain : Experiment :=
  { series := [("temp", sdPlainW)],
    agent_types := 2,
    length := 2,
    attr := fun _ => "x" }

/-- A runner holding `expPlain`, without an `"agent_types"` entry. -/
def runnerPlain : Runner :=
  { experiments := [expPlain],
    experiment_parameters_set :=
      { agent_types := none, parameters_to_vary := [] } }

/-- An all-fields-trivial figure, used as a `getD` default. -/
def emptyFigure : FigureConfig :=
  { subplot_titles := [], row_titles := [], x_range := (0, 0),
    x_autorange := false, y_autorange := "", height := 0, width := 0,
    title_text := "", colorscale := "",
    colorbar := { title := "", titleside := "", tickmode := "", tickvals := [],
                  ticktext := [], ticks := "" },
    cmin := 0, cmax := 0, grid_rows := 0, grid_columns := 0, heatmaps := [] }

/-- The metadata the resolver produces for `runnerStates`. -/
def mdW : Metadata :=
  (get_series_metadata "density" runnerStates).getD
    { tickvals := [], labelalias := [] }

/-- The rows the pipeline builds for `runnerStates`. -/
def rowsW : List Row :=
  (process_series runnerStates "density" (params_set runnerStates none)).getD []

/-- The figure `show_up` produces for `runnerStates`. -/
def figW : FigureConfig :=
  (show_up "density" runnerStates "T" none "" none "Viridis").getD emptyFigure

/-! ### Claim theorems -/

/-- C7: resolving `max_agent_types` uses the experiment-parameter-set entry for
`"agent_types"` when the key is present (taking its maximum), and only on a
missing key falls back to the first experiment's own agent-type count; the
missing key selects the fallback instead of raising. -/
theorem c7_max_agent_types_fallback (runner : Runner) (e : Experiment)
    (he : runner.experiments.head? = some e) :
    (∀ l, runner.experiment_parameters_set.agent_types = some l →
      resolve_max_agent_types runner = l.max?) ∧
    (runner.experiment_parameters_set.agent_types = none →
      resolve_max_agent_types runner = some e.agent_types) := by
  constructor
  · intro l hl
    simp [resolve_max_agent_types, he, hl]
  · intro hl
    simp [resolve_max_agent_types, he, hl]

/-- Witness for C7 at the concrete runners. -/
theorem c7_max_agent_types_fallback_witness :
    ((∀ l, runnerStates.experiment_parameters_set.agent_types = some l →
      resolve_max_agent_types runnerStates = l.max?) ∧
    (runnerStates.experiment_parameters_set.agent_types = none →
      resolve_max_agent_types runnerStates = some expStates.agent_types)) ∧
    ((∀ l, runnerPlain.experiment_parameters_set.agent_types = some l →
      resolve_max_agent_types runnerPlain = l.max?) ∧
    (runnerPlain.experiment_parameters_set.agent_types = none →
      resolve_max_agent_types runnerPlain = some expPlain.agent_types)) :=
  ⟨c7_max_agent_types_fallback runnerStates expStates rfl,
   c7_max_agent_types_fallback runnerPlain expPlain rfl⟩

/-- C10: an explicitly empty `attributes_to_consider` list behaves exactly like
omitting the argument, and the resulting title parameter set is exactly the
collection's varying-parameter set. -/
theorem c10_empty_attrs (series_name : String) (runner : Runner)
    (plot_title leyend colorscale : String) (height : Option ℤ) :
    show_up series_name runner plot_title height leyend (some []) colorscale =
      show_up series_name runner plot_title height leyend none colorscale ∧
    (∀ p, p ∈ params_set runner (some []) ↔
      p ∈ runner.experiment_parameters_set.parameters_to_vary) := by
  constructor
  · rfl
  · intro p
    simp [params_set, mk_params]

/-- C8: the figure configurator sets the x-axis range to
`[0, first_experiment_length - 1]` and reverses the y-axis direction. -/
theorem c8_axes (series_name : String) (runner : Runner) (e0 : Experiment)
    (plot_title leyend colorscale : String) (height : Option ℤ)
    (attrs : Option (List String)) (fig : FigureConfig)
    (he : runner.experiments.head? = some e0)
    (hfig : show_up series_name runner plot_title height leyend attrs
      colorscale = some fig) :
    fig.x_range = (0, (e0.length : ℚ) - 1) ∧ fig.y_autorange = "reversed" := by
  obtain ⟨rows, mm, hrows, hmm, hcfg⟩ := show_up_some_iff.mp hfig
  obtain ⟨e0', r0, he', hr0, hfigeq⟩ := configure_figure_some_iff.mp hcfg
  rw [he] at he'
  cases he'
  subst hfigeq
  exact ⟨rfl, rfl⟩

/-- Witness for C8 at the concrete runner. -/
theorem c8_axes_witness :
    figW.x_range = (0, (expStates.length : ℚ) - 1) ∧
      figW.y_autorange = "reversed" :=
  c8_axes "density" runnerStates expStates "T" "" "Viridis" none none figW
    rfl rfl

/-- C5 counterexample: with an explicitly supplied height of `0`, the render
uses the default `max(600, 300 × row_count) = 600`, not the supplied `0`
(Python truthiness treats `0` like `None`). -/
theorem c5_counterexample :
    (show_up "density" runnerStates "T" (some 0) "" none "Viridis").map
        FigureConfig.height = some 600 ∧ (600 : ℤ) ≠ 0 := by
  constructor
  · rfl
  · decide

/-- C5 (amended): when the height argument is omitted or is `0`, the figure
height is `max(600, 300 × row_count)`; a nonzero explicit height is used as
given. -/
theorem c5_height_amended (series_name : String) (runner : Runner)
    (plot_title leyend colorscale : String) (height : Option ℤ)
    (attrs : Option (List String)) (rows : List Row) (fig : FigureConfig)
    (hrows : process_series runner series_name (params_set runner attrs) =
      some rows)
    (hfig : show_up series_name runner plot_title height leyend attrs
      colorscale = some fig) :
    ((height = none ∨ height = some 0) →
      fig.height = max 600 (300 * (rows.length : ℤ))) ∧
    (∀ hv : ℤ, height = some hv → hv ≠ 0 → fig.height = hv) := by
  obtain ⟨rows', mm, hrows', hmm, hcfg⟩ := show_up_some_iff.mp hfig
  rw [hrows] at hrows'
  cases hrows'
  obtain ⟨e0, r0, he, hr0, hfigeq⟩ := configure_figure_some_iff.mp hcfg
  subst hfigeq
  constructor
  · rintro (rfl | rfl)
    · rfl
    · simp [figure_of]
  · rintro hv rfl hv0
    simp [figure_of, hv0]

/-- Witness for C5's amended theorem at the concrete runner. -/
theorem c5_height_amended_witness :
    (((none : Option ℤ) = none ∨ (none : Option ℤ) = some 0) →
      figW.height = max 600 (300 * (rowsW.length : ℤ))) ∧
    (∀ hv : ℤ, (none : Option ℤ) = some hv → hv ≠ 0 → figW.height = hv) :=
  c5_height_amended "density" runnerStates "T" "" "Viridis" none none rowsW
    figW rfl rfl

/-- Unfolding `process_series` into metadata resolution plus the row loop. -/
lemma process_series_some_iff {runner : Runner} {series_name : String}
    {params : List String} {rows : List Row} :
    process_series runner series_name params = some rows ↔
      ∃ md, get_series_metadata series_name runner = some md ∧
        build_rows series_name params md 1 runner.experiments = some rows := by
  simp only [process_series, Option.bind_eq_bind, Option.bind_eq_some]

/-- Every row built by `build_row` carries the resolved metadata verbatim. -/
lemma build_row_metadata_fields {series_name : String} {params : List String}
    {metadata : Metadata} {i : ℕ} {e : Experiment} {row : Row}
    (h : build_row series_name params metadata i e = some row) :
    row.tickvals = metadata.tickvals ∧ row.labelalias = metadata.labelalias := by
  simp only [build_row, Option.bind_eq_bind, Option.bind_eq_some,
    Option.some.injEq] at h
  obtain ⟨sd, hsd, first, hf, last, hl, hrow⟩ := h
  subst hrow
  exact ⟨rfl, rfl⟩

/-- Every row built by the `process_series` loop carries the resolved
metadata verbatim. -/
lemma build_rows_metadata_fields {series_name : String} {params : List String}
    {metadata : Metadata} {es : List Experiment} :
    ∀ {i : ℕ} {rows : List Row},
      build_rows series_name params metadata i es = some rows →
      ∀ r ∈ rows, r.tickvals = metadata.tickvals ∧
        r.labelalias = metadata.labelalias := by
  induction es with
  | nil =>
    intro i rows h r hr
    simp only [build_rows, Option.some.injEq] at h
    subst h
    simp at hr
  | cons e es ih =>
    intro i rows h r hr
    simp only [build_rows, Option.bind_eq_bind, Option.bind_eq_some,
      Option.some.injEq] at h
    obtain ⟨r0, hr0, rs, hrs, hrows⟩ := h
    subst hrows
    rcases List.mem_cons.mp hr with rfl | hmem
    · exact build_row_metadata_fields hr0
    · exact ih hrs r hmem

/-- C1: the global color range equals the true minimum and maximum over the
union of all rows' first- and last-snapshot values, and that pair is used as
the shared `cmin`/`cmax` color domain of the figure. -/
theorem c1_global_range (series_name : String) (runner : Runner)
    (plot_title leyend colorscale : String) (height : Option ℤ)
    (attrs : Option (List String)) (rows : List Row) (zmin zmax : Val)
    (fig : FigureConfig)
    (hrows : process_series runner series_name (params_set runner attrs) =
      some rows)
    (hmm : calculate_global_min_max rows = some (zmin, zmax))
    (hfig : show_up series_name runner plot_title height leyend attrs
      colorscale = some fig) :
    (zmin ∈ allVals rows ∧ ∀ v ∈ allVals rows, zmin ≤ v) ∧
    (zmax ∈ allVals rows ∧ ∀ v ∈ allVals rows, v ≤ zmax) ∧
    fig.cmin = zmin ∧ fig.cmax = zmax := by
  have h := hmm
  unfold calculate_global_min_max at h
  rcases hmin : (allVals rows).min? with _ | mn <;> rw [hmin] at h
  · simp at h
  rcases hmax : (allVals rows).max? with _ | mx <;> rw [hmax] at h
  · simp at h
  simp only [Option.some.injEq, Prod.mk.injEq] at h
  obtain ⟨rfl, rfl⟩ := h
  refine ⟨rat_min?_spec hmin, rat_max?_spec hmax, ?_⟩
  obtain ⟨rows', mm, hrows', hmm', hcfg⟩ := show_up_some_iff.mp hfig
  obtain rfl : rows' = rows := by
    rw [hrows] at hrows'
    exact (Option.some.inj hrows').symm
  obtain rfl : mm = (mn, mx) := by
    rw [hmm] at hmm'
    exact (Option.some.inj hmm').symm
  obtain ⟨e0, r0, he, hr0, hfigeq⟩ := configure_figure_some_iff.mp hcfg
  subst hfigeq
  exact ⟨rfl, rfl⟩

/-- Witness for C1 at the concrete runner. -/
theorem c1_global_range_witness :
    ((0 : ℚ) ∈ allVals rowsW ∧ ∀ v ∈ allVals rowsW, (0 : ℚ) ≤ v) ∧
    ((8 : ℚ) ∈ allVals rowsW ∧ ∀ v ∈ allVals rowsW, v ≤ (8 : ℚ)) ∧
    figW.cmin = 0 ∧ figW.cmax = 8 :=
  c1_global_range "density" runnerStates "T" "" "Viridis" none none rowsW 0 8
    figW rfl rfl rfl

/-- C4: the color bar carries exactly as many tick labels as the resolver's
tick-value count; its tick positions are that many values linearly spaced
between the global min and max, and each label is the tick value formatted to
one decimal place. -/
theorem c4_colorbar_ticks (series_name : String) (runner : Runner)
    (plot_title leyend colorscale : String) (height : Option ℤ)
    (attrs : Option (List String)) (md : Metadata) (rows : List Row)
    (zmin zmax : Val) (fig : FigureConfig)
    (hmd : get_series_metadata series_name runner = some md)
    (hrows : process_series runner series_name (params_set runner attrs) =
      some rows)
    (hmm : calculate_global_min_max rows = some (zmin, zmax))
    (hfig : show_up series_name runner plot_title height leyend attrs
      colorscale = some fig) :
    fig.colorbar.tickvals = linspace zmin zmax md.tickvals.length ∧
    fig.colorbar.tickvals.length = md.tickvals.length ∧
    fig.colorbar.ticktext = fig.colorbar.tickvals.map fmt1 ∧
    fig.colorbar.ticktext.length = md.tickvals.length := by
  obtain ⟨rows', mm, hrows', hmm', hcfg⟩ := show_up_some_iff.mp hfig
  obtain rfl : rows = rows' := by
    rw [hrows] at hrows'
    exact Option.some.inj hrows'
  obtain rfl : mm = (zmin, zmax) := by
    rw [hmm] at hmm'
    exact (Option.some.inj hmm').symm
  obtain ⟨e0, r0, he, hr0, hfigeq⟩ := configure_figure_some_iff.mp hcfg
  obtain ⟨md', hmd', hbuild⟩ := process_series_some_iff.mp hrows
  obtain rfl : md = md' := by
    rw [hmd] at hmd'
    exact Option.some.inj hmd'
  have hr0mem : r0 ∈ rows := by
    cases rows with
    | nil => simp at hr0
    | cons a t =>
      simp only [List.head?_cons, Option.some.injEq] at hr0
      subst hr0
      exact List.mem_cons_self a t
  have htv : r0.tickvals = md.tickvals :=
    (build_rows_metadata_fields hbuild r0 hr0mem).1
  subst hfigeq
  refine ⟨?_, ?_, ?_, ?_⟩
  · simp only [figure_of, htv]
  · simp only [figure_of, htv, linspace_length]
  · simp only [figure_of]
  · simp only [figure_of, htv, List.length_map, linspace_length]

/-- Witness for C4 at the concrete runner. -/
theorem c4_colorbar_ticks_witness :
    figW.colorbar.tickvals = linspace 0 8 mdW.tickvals.length ∧
    figW.colorbar.tickvals.length = mdW.tickvals.length ∧
    figW.colorbar.ticktext = figW.colorbar.tickvals.map fmt1 ∧
    figW.colorbar.ticktext.length = mdW.tickvals.length :=
  c4_colorbar_ticks "density" runnerStates "T" "" "Viridis" none none mdW
    rowsW 0 8 figW rfl rfl rfl rfl

/-- `toNat` distributes over a product with a natural cast. -/
lemma toNat_mul_natCast (A : ℤ) (S : ℕ) : (A * (S : ℤ)).toNat = A.toNat * S := by
  rcases le_or_lt 0 A with h | h
  · lift A to ℕ using h
    rw [← Int.natCast_mul, Int.toNat_natCast, Int.toNat_natCast]
  · have hAS : A * (S : ℤ) ≤ 0 :=
      mul_nonpos_iff.mpr (Or.inr ⟨h.le, Int.natCast_nonneg S⟩)
    rw [Int.toNat_of_nonpos hAS, Int.toNat_of_nonpos h.le, Nat.zero_mul]

/-- `pyRange n` has `n.toNat` entries. -/
lemma pyRange_length (n : ℤ) : (pyRange n).length = n.toNat := by
  simp [pyRange]

/-- The `j`-th entry of `pyRange n` is `j`. -/
lemma pyRange_getElem? (n : ℤ) (j : ℕ) (hj : j < n.toNat) :
    (pyRange n)[j]? = some (j : ℤ) := by
  rw [pyRange, List.getElem?_map, List.getElem?_range hj]
  rfl

/-- Metadata resolution on the explicit-states branch: with the `"states"`
key present, the resolver returns the `A × S` tick values and the
`"{i mod A} {states[i div A]}"` labels. -/
lemma get_series_metadata_states_eq {series_name : String} {runner : Runner}
    {e : Experiment} {A : ℤ} {sd : SeriesData} {states : List String}
    (he : runner.experiments.head? = some e)
    (hA : resolve_max_agent_types runner = some A)
    (hsd : e.series.lookup series_name = some sd)
    (hstates : sd.states = some states) :
    get_series_metadata series_name runner = some
      { tickvals := (pyRange (A * states.length)).map fun (i : ℤ) => (i : ℚ),
        labelalias := (pyRange (A * states.length)).map fun (i : ℤ) =>
          ((i : ℚ),
           toString (i % A) ++ " " ++ states.getD (i / A).toNat "") } := by
  rw [get_series_metadata]
  simp [Option.bind_eq_bind, he, hA, hsd, hstates]

/-- C2: with an explicit `"states"` mapping of `S` states and
`A = max_agent_types`, the resolver returns exactly `A × S` tick values (the
integers `0 .. A×S-1`), and the label of tick `i` is
`"{i mod A} {states[i div A]}"`. -/
theorem c2_explicit_states (series_name : String) (runner : Runner)
    (e : Experiment) (A : ℤ) (sd : SeriesData) (states : List String)
    (md : Metadata)
    (he : runner.experiments.head? = some e)
    (hA : resolve_max_agent_types runner = some A)
    (hsd : e.series.lookup series_name = some sd)
    (hstates : sd.states = some states)
    (hmd : get_series_metadata series_name runner = some md) :
    md.tickvals.length = A.toNat * states.length ∧
    (∀ j : ℕ, j < md.tickvals.length → md.tickvals.getD j 0 = (j : ℚ)) ∧
    md.labelalias.length = A.toNat * states.length ∧
    (∀ j : ℕ, j < md.labelalias.length →
      md.labelalias.getD j (0, "") =
        ((j : ℚ),
         toString ((j : ℤ) % A) ++ " "
           ++ states.getD (((j : ℤ) / A).toNat) "")) := by
  have heq := get_series_metadata_states_eq he hA hsd hstates
  rw [hmd] at heq
  obtain rfl := Option.some.inj heq
  refine ⟨?_, ?_, ?_, ?_⟩
  · simp [pyRange_length, toNat_mul_natCast]
  · intro j hj
    simp only [List.length_map, pyRange_length] at hj
    rw [List.getD_eq_getElem?_getD, List.getElem?_map, pyRange_getElem? _ _ hj]
    simp
  · simp [pyRange_length, toNat_mul_natCast]
  · intro j hj
    simp only [List.length_map, pyRange_length] at hj
    rw [List.getD_eq_getElem?_getD, List.getElem?_map, pyRange_getElem? _ _ hj]
    simp

/-- Witness for C2 at the concrete runner. -/
theorem c2_explicit_states_witness :
    mdW.tickvals.length = (2 : ℤ).toNat * ["open", "closed"].length ∧
    (∀ j : ℕ, j < mdW.tickvals.length → mdW.tickvals.getD j 0 = (j : ℚ)) ∧
    mdW.labelalias.length = (2 : ℤ).toNat * ["open", "closed"].length ∧
    (∀ j : ℕ, j < mdW.labelalias.length →
      mdW.labelalias.getD j (0, "") =
        ((j : ℚ),
         toString ((j : ℤ) % 2) ++ " "
           ++ ["open", "closed"].getD (((j : ℤ) / 2).toNat) "")) :=
  c2_explicit_states "density" runnerStates expStates 2 sdStatesW
    ["open", "closed"] mdW rfl rfl rfl rfl rfl

/-- Metadata resolution on the fallback branches: without a `"states"` key,
the resolver scans the first experiment's first snapshot and either produces
`8 × experiment_count` evenly spaced values or the `0 .. A-1` range. -/
lemma get_series_metadata_fallback_eq {series_name : String} {runner : Runner}
    {e : Experiment} {A : ℤ} {sd : SeriesData} {snap : Lattice} {mn mx : ℚ}
    (he : runner.experiments.head? = some e)
    (hA : resolve_max_agent_types runner = some A)
    (hsd : e.series.lookup series_name = some sd)
    (hstates : sd.states = none)
    (hsnap : sd.snapshots.head? = some snap)
    (hmn : snap.flatten.min? = some mn)
    (hmx : snap.flatten.max? = some mx) :
    get_series_metadata series_name runner = some (
      if mx - mn > (A : ℚ) then
        { tickvals := linspace mn (mx + 1) (8 * runner.experiments.length),
          labelalias :=
            (linspace mn (mx + 1) (8 * runner.experiments.length)).map
              fun v => (v, pyStr v) }
      else
        { tickvals := (pyRange A).map fun (i : ℤ) => ((i : ℚ)),
          labelalias := ((pyRange A).map fun (i : ℤ) => ((i : ℚ))).map
            fun v => (v, pyStr v) }) := by
  rw [get_series_metadata]
  simp only [Option.bind_eq_bind, he, Option.some_bind, hA, hsd, hstates,
    hsnap, hmn, hmx]
  split <;> rfl

/-- C3: without per-state metadata the resolver computes the min and max of
the flattened first snapshot of the first experiment's series; when the
spread exceeds `max_agent_types` it returns `8 × experiment_count` tick
values evenly spaced over `[min, max+1]`, each labeled with its numeric
value, and otherwise it returns tick values `0 .. max_agent_types-1`, each
labeled with its own integer. -/
theorem c3_fallback_branches (series_name : String) (runner : Runner)
    (e : Experiment) (A : ℤ) (sd : SeriesData) (snap : Lattice) (mn mx : ℚ)
    (md : Metadata)
    (he : runner.experiments.head? = some e)
    (hA : resolve_max_agent_types runner = some A)
    (hsd : e.series.lookup series_name = some sd)
    (hstates : sd.states = none)
    (hsnap : sd.snapshots.head? = some snap)
    (hmn : snap.flatten.min? = some mn)
    (hmx : snap.flatten.max? = some mx)
    (hmd : get_series_metadata series_name runner = some md) :
    (mx - mn > (A : ℚ) →
      md.tickvals = linspace mn (mx + 1) (8 * runner.experiments.length) ∧
      md.tickvals.length = 8 * runner.experiments.length ∧
      md.labelalias = md.tickvals.map fun v => (v, pyStr v)) ∧
    (¬ mx - mn > (A : ℚ) →
      md.tickvals = (pyRange A).map (fun (i : ℤ) => ((i : ℚ))) ∧
      md.tickvals.length = A.toNat ∧
      (∀ j : ℕ, j < md.tickvals.length → md.tickvals.getD j 0 = (j : ℚ)) ∧
      md.labelalias = md.tickvals.map fun v => (v, pyStr v)) := by
  have heq := get_series_metadata_fallback_eq he hA hsd hstates hsnap hmn hmx
  rw [hmd] at heq
  obtain rfl := Option.some.inj heq
  constructor
  · intro hgt
    rw [if_pos hgt]
    exact ⟨rfl, linspace_length _ _ _, rfl⟩
  · intro hle
    rw [if_neg hle]
    refine ⟨rfl, ?_, ?_, rfl⟩
    · simp [pyRange_length]
    · intro j hj
      simp only [List.length_map, pyRange_length] at hj
      rw [List.getD_eq_getElem?_getD, List.getElem?_map, pyRange_getElem? _ _ hj]
      simp

/-- The metadata the resolver produces for `runnerPlain` (the intensity
branch fires because the spread `10 - 0` exceeds `max_agent_types = 2`). -/
def mdPlainW : Metadata :=
  { tickvals := linspace 0 (10 + 1) (8 * runnerPlain.experiments.length),
    labelalias := (linspace 0 (10 + 1) (8 * runnerPlain.experiments.length)).map
      fun v => (v, pyStr v) }

/-- The resolver result for `runnerPlain` is `mdPlainW`. -/
lemma mdPlainW_eq : get_series_metadata "temp" runnerPlain = some mdPlainW := by
  have h := @get_series_metadata_fallback_eq "temp" runnerPlain expPlain 2
    sdPlainW [[0, 1], [2, 10]] 0 10 rfl rfl rfl rfl rfl rfl rfl
  rw [if_pos (show (10 : ℚ) - 0 > ((2 : ℤ) : ℚ) by norm_num)] at h
  exact h

/-- Witness for C3 at the concrete runner. -/
theorem c3_fallback_branches_witness :
    ((10 : ℚ) - 0 > ((2 : ℤ) : ℚ) →
      mdPlainW.tickvals = linspace 0 (10 + 1) (8 * runnerPlain.experiments.length) ∧
      mdPlainW.tickvals.length = 8 * runnerPlain.experiments.length ∧
      mdPlainW.labelalias = mdPlainW.tickvals.map fun v => (v, pyStr v)) ∧
    (¬ (10 : ℚ) - 0 > ((2 : ℤ) : ℚ) →
      mdPlainW.tickvals = (pyRange 2).map (fun (i : ℤ) => ((i : ℚ))) ∧
      mdPlainW.tickvals.length = (2 : ℤ).toNat ∧
      (∀ j : ℕ, j < mdPlainW.tickvals.length →
        mdPlainW.tickvals.getD j 0 = (j : ℚ)) ∧
      mdPlainW.labelalias = mdPlainW.tickvals.map fun v => (v, pyStr v)) :=
  c3_fallback_branches "temp" runnerPlain expPlain 2 sdPlainW
    [[0, 1], [2, 10]] 0 10 mdPlainW rfl rfl rfl rfl rfl rfl rfl mdPlainW_eq

/-- Membership in `mk_params` agrees with membership in the supplied list. -/
lemma mk_params_mem (attrs : Option (List String)) (p : String) :
    p ∈ mk_params attrs ↔ p ∈ attrs.getD [] := by
  cases attrs with
  | none => rfl
  | some l => cases l <;> simp [mk_params]

/-- An all-fields-trivial row, used as a `getD` default. -/
def emptyRow : Row :=
  { index := 0, first_lattice := [], last_lattice := [], title := "",
    subplot_titles := [], tickvals := [], labelalias := [] }

/-- C6: the composed row title is the `"{param}={value}"` segments of the
union of the explicit parameter list and the varying-parameter set, joined by
line breaks; the enumerated union has no duplicates and contains exactly the
parameters of either source. -/
theorem c6_row_title (runner : Runner) (attrs : Option (List String))
    (series_name : String) (md : Metadata) (i : ℕ) (e : Experiment) (row : Row)
    (hrow : build_row series_name (params_set runner attrs) md i e = some row) :
    (params_set runner attrs).Nodup ∧
    (∀ p, p ∈ params_set runner attrs ↔
      (p ∈ attrs.getD [] ∨
        p ∈ runner.experiment_parameters_set.parameters_to_vary)) ∧
    row.title = String.intercalate "<br>"
      ((params_set runner attrs).map fun a => a ++ "=" ++ e.attr a) := by
  refine ⟨List.nodup_dedup _, ?_, ?_⟩
  · intro p
    rw [params_set, List.mem_dedup, List.mem_append, mk_params_mem]
  · simp only [build_row, Option.bind_eq_bind, Option.bind_eq_some,
      Option.some.injEq] at hrow
    obtain ⟨sd, hsd, first, hf, last, hl, hrow⟩ := hrow
    subst hrow
    rfl

/-- The row `build_row` assembles for `expStates`. -/
def rowW : Row :=
  (build_row "density" (params_set runnerStates none) mdW 1 expStates).getD
    emptyRow

/-- Witness for C6 at the concrete runner. -/
theorem c6_row_title_witness :
    (params_set runnerStates none).Nodup ∧
    (∀ p, p ∈ params_set runnerStates none ↔
      (p ∈ (none : Option (List String)).getD [] ∨
        p ∈ runnerStates.experiment_parameters_set.parameters_to_vary)) ∧
    rowW.title = String.intercalate "<br>"
      ((params_set runnerStates none).map fun a => a ++ "=" ++
        expStates.attr a) :=
  c6_row_title runnerStates none "density" mdW 1 expStates rowW rfl

/-! ### Noninterference of tick metadata content (C9) -/

/-- Everything a row contributes to the final figure: all its fields except
the tick values (of which only the count matters) and the label map (which is
never consumed). -/
structure RowCore where
  index : ℕ
  first_lattice : Lattice
  last_lattice : Lattice
  title : String
  subplot_titles : List String
  tick_count : ℕ
  deriving DecidableEq, Repr

/-- Project a row to its figure-relevant content. -/
def Row.core (r : Row) : RowCore :=
  { index := r.index, first_lattice := r.first_lattice,
    last_lattice := r.last_lattice, title := r.title,
    subplot_titles := r.subplot_titles, tick_count := r.tickvals.length }

/-- `build_row` produces core-equal rows from metadata of equal tick count. -/
lemma build_row_core_congr {m1 m2 : Metadata}
    (hlen : m1.tickvals.length = m2.tickvals.length)
    (series_name : String) (params : List String) (i : ℕ) (e : Experiment) :
    (build_row series_name params m1 i e).map Row.core =
      (build_row series_name params m2 i e).map Row.core := by
  unfold build_row
  cases e.series.lookup series_name with
  | none => rfl
  | some sd =>
    simp only [Option.bind_eq_bind, Option.some_bind]
    cases sd.snapshots.head? with
    | none => rfl
    | some first =>
      simp only [Option.some_bind]
      cases sd.snapshots.getLast? with
      | none => rfl
      | some last => simp [Row.core, hlen]

/-- The `process_series` loop produces core-equal row lists from metadata of
equal tick count. -/
lemma build_rows_core_congr {m1 m2 : Metadata}
    (hlen : m1.tickvals.length = m2.tickvals.length)
    (series_name : String) (params : List String) (es : List Experiment) :
    ∀ i : ℕ,
      (build_rows series_name params m1 i es).map (List.map Row.core) =
        (build_rows series_name params m2 i es).map (List.map Row.core) := by
  induction es with
  | nil => intro i; rfl
  | cons e es ih =>
    intro i
    have h1 := build_row_core_congr hlen series_name params i e
    have h2 := ih (i + 1)
    simp only [build_rows, Option.bind_eq_bind]
    cases hb1 : build_row series_name params m1 i e with
    | none =>
      cases hb2 : build_row series_name params m2 i e with
      | none => rfl
      | some r2 =>
        rw [hb1, hb2] at h1
        simp at h1
    | some r1 =>
      cases hb2 : build_row series_name params m2 i e with
      | none =>
        rw [hb1, hb2] at h1
        simp at h1
      | some r2 =>
        rw [hb1, hb2] at h1
        simp only [Option.map_some', Option.some.injEq] at h1
        cases hr1 : build_rows series_name params m1 (i + 1) es with
        | none =>
          cases hr2 : build_rows series_name params m2 (i + 1) es with
          | none => rfl
          | some t2 =>
            rw [hr1, hr2] at h2
            simp at h2
        | some t1 =>
          cases hr2 : build_rows series_name params m2 (i + 1) es with
          | none =>
            rw [hr1, hr2] at h2
            simp at h2
          | some t2 =>
            rw [hr1, hr2] at h2
            simp only [Option.map_some', Option.some.injEq] at h2
            simp [h1, h2]

/-- The `all_values` loop only reads the lattices, which core equality
preserves. -/
lemma foldl_vals_core_congr :
    ∀ (rows1 rows2 : List Row) (acc : List Val),
      rows1.map Row.core = rows2.map Row.core →
      rows1.foldl
          (fun acc row =>
            acc ++ row.first_lattice.flatten ++ row.last_lattice.flatten)
          acc =
        rows2.foldl
          (fun acc row =>
            acc ++ row.first_lattice.flatten ++ row.last_lattice.flatten)
          acc := by
  intro rows1
  induction rows1 with
  | nil =>
    intro rows2 acc h
    cases rows2 with
    | nil => rfl
    | cons r2 t2 => simp at h
  | cons r1 t1 ih =>
    intro rows2 acc h
    cases rows2 with
    | nil => simp at h
    | cons r2 t2 =>
      simp only [List.map_cons, List.cons.injEq] at h
      obtain ⟨hc, ht⟩ := h
      have hfl : r1.first_lattice = r2.first_lattice :=
        congrArg RowCore.first_lattice hc
      have hll : r1.last_lattice = r2.last_lattice :=
        congrArg RowCore.last_lattice hc
      simp only [List.foldl_cons, hfl, hll]
      exact ih t2 _ ht

/-- The global range only depends on the rows' cores. -/
lemma calc_core_congr {rows1 rows2 : List Row}
    (h : rows1.map Row.core = rows2.map Row.core) :
    calculate_global_min_max rows1 = calculate_global_min_max rows2 := by
  unfold calculate_global_min_max allVals
  rw [foldl_vals_core_congr rows1 rows2 [] h]

/-- The subplot-title sequence only depends on the rows' cores. -/
lemma subplot_core_congr :
    ∀ {rows1 rows2 : List Row}, rows1.map Row.core = rows2.map Row.core →
      make_subplot_titles rows1 = make_subplot_titles rows2 := by
  intro rows1
  induction rows1 with
  | nil =>
    intro rows2 h
    cases rows2 with
    | nil => rfl
    | cons r2 t2 => simp at h
  | cons r1 t1 ih =>
    intro rows2 h
    cases rows2 with
    | nil => simp at h
    | cons r2 t2 =>
      simp only [List.map_cons, List.cons.injEq] at h
      obtain ⟨hc, ht⟩ := h
      have hst : r1.subplot_titles = r2.subplot_titles :=
        congrArg RowCore.subplot_titles hc
      simp only [make_subplot_titles, hst]
      rw [ih ht]

/-- The heatmap traces only depend on the rows' cores. -/
lemma heatmaps_core_congr :
    ∀ {rows1 rows2 : List Row}, rows1.map Row.core = rows2.map Row.core →
      make_heatmaps rows1 = make_heatmaps rows2 := by
  intro rows1
  induction rows1 with
  | nil =>
    intro rows2 h
    cases rows2 with
    | nil => rfl
    | cons r2 t2 => simp at h
  | cons r1 t1 ih =>
    intro rows2 h
    cases rows2 with
    | nil => simp at h
    | cons r2 t2 =>
      simp only [List.map_cons, List.cons.injEq] at h
      obtain ⟨hc, ht⟩ := h
      have hi : r1.index = r2.index := congrArg RowCore.index hc
      have hfl : r1.first_lattice = r2.first_lattice :=
        congrArg RowCore.first_lattice hc
      have hll : r1.last_lattice = r2.last_lattice :=
        congrArg RowCore.last_lattice hc
      simp only [make_heatmaps, hi, hfl, hll]
      rw [ih ht]

/-- The row-title sequence only depends on the rows' cores. -/
lemma titles_core_congr {rows1 rows2 : List Row}
    (h : rows1.map Row.core = rows2.map Row.core) :
    rows1.map Row.title = rows2.map Row.title := by
  have hmap : ∀ rows : List Row,
      rows.map Row.title = (rows.map Row.core).map RowCore.title := by
    intro rows
    rw [List.map_map]
    rfl
  rw [hmap rows1, hmap rows2, h]

/-- Core-equal row lists have equal length. -/
lemma length_core_congr {rows1 rows2 : List Row}
    (h : rows1.map Row.core = rows2.map Row.core) :
    rows1.length = rows2.length := by
  have := congrArg List.length h
  simpa using this

/-- The configured figure only depends on the rows' cores. -/
lemma configure_figure_core_congr {runner : Runner}
    {plot_title leyend colorscale : String} {height : Option ℤ}
    {zmin zmax : Val} {rows1 rows2 : List Row}
    (h : rows1.map Row.core = rows2.map Row.core) :
    configure_figure runner plot_title leyend height rows1 zmin zmax
        colorscale =
      configure_figure runner plot_title leyend height rows2 zmin zmax
        colorscale := by
  unfold configure_figure
  cases rows1 with
  | nil =>
    cases rows2 with
    | nil => rfl
    | cons r2 t2 => simp at h
  | cons r1 t1 =>
    cases rows2 with
    | nil => simp at h
    | cons r2 t2 =>
      have hc : r1.core = r2.core := by
        simp only [List.map_cons, List.cons.injEq] at h
        exact h.1
      have hsub := subplot_core_congr h
      have htit := titles_core_congr h
      have hheat := heatmaps_core_congr h
      have hlen := length_core_congr h
      have htc : r1.tickvals.length = r2.tickvals.length :=
        congrArg RowCore.tick_count hc
      cases runner.experiments.head? with
      | none => rfl
      | some e0 =>
        simp only [List.head?_cons, Option.bind_eq_bind, Option.some_bind,
          Option.some.injEq]
        rw [hsub, htit, hheat, hlen, htc]

/-- `show_up` factors through metadata resolution followed by
`render_after_metadata`. -/
lemma show_up_factor (series_name : String) (runner : Runner)
    (plot_title leyend colorscale : String) (height : Option ℤ)
    (attrs : Option (List String)) :
    show_up series_name runner plot_title height leyend attrs colorscale =
      (get_series_metadata series_name runner).bind
        (render_after_metadata runner series_name (params_set runner attrs)
          plot_title leyend height colorscale) := by
  unfold show_up process_series render_after_metadata
  cases get_series_metadata series_name runner with
  | none => rfl
  | some md => rfl

/-- C9: the tick-label map never influences the rendered figure: metadata
values that agree on the number of tick values render identically, because
the pipeline downstream of metadata resolution (which `show_up` factors
through) consumes nothing else of the metadata. -/
theorem c9_labelalias_noninterference (runner : Runner)
    (series_name plot_title leyend colorscale : String) (height : Option ℤ)
    (params : List String) (m1 m2 : Metadata)
    (hlen : m1.tickvals.length = m2.tickvals.length) :
    (render_after_metadata runner series_name params plot_title leyend height
        colorscale m1 =
      render_after_metadata runner series_name params plot_title leyend height
        colorscale m2) ∧
    (∀ attrs, show_up series_name runner plot_title height leyend attrs
        colorscale =
      (get_series_metadata series_name runner).bind
        (render_after_metadata runner series_name (params_set runner attrs)
          plot_title leyend height colorscale)) := by
  refine ⟨?_, fun attrs =>
    show_up_factor series_name runner plot_title leyend colorscale height
      attrs⟩
  unfold render_after_metadata
  have hb := build_rows_core_congr hlen series_name params
    runner.experiments 1
  cases h1 : build_rows series_name params m1 1 runner.experiments with
  | none =>
    cases h2 : build_rows series_name params m2 1 runner.experiments with
    | none => rfl
    | some t2 =>
      rw [h1, h2] at hb
      simp at hb
  | some rows1 =>
    cases h2 : build_rows series_name params m2 1 runner.experiments with
    | none =>
      rw [h1, h2] at hb
      simp at hb
    | some rows2 =>
      rw [h1, h2] at hb
      simp only [Option.map_some', Option.some.injEq] at hb
      simp only [Option.bind_eq_bind, Option.some_bind]
      rw [calc_core_congr hb]
      cases calculate_global_min_max rows2 with
      | none => rfl
      | some mm => exact configure_figure_core_congr hb

/-- A one-tick metadata value with a label. -/
def mdA : Metadata := { tickvals := [0], labelalias := [(0, "a")] }

/-- A different one-tick metadata value without labels. -/
def mdB : Metadata := { tickvals := [5], labelalias := [] }

/-- Witness for C9 at concrete metadata values of equal tick count. -/
theorem c9_labelalias_noninterference_witness :
    (render_after_metadata runnerStates "density" ["p"] "T" "" none
        "Viridis" mdA =
      render_after_metadata runnerStates "density" ["p"] "T" "" none
        "Viridis" mdB) ∧
    (∀ attrs, show_up "density" runnerStates "T" none "" attrs "Viridis" =
      (get_series_metadata "density" runnerStates).bind
        (render_after_metadata runnerStates "density"
          (params_set runnerStates attrs) "T" "" none "Viridis")) :=
  c9_labelalias_noninterference runnerStates "density" "T" "" "Viridis" none
    ["p"] mdA mdB rfl

end FinalGrid
